import Mathlib

/-!
Verification of the arXiv paper downloader front-end
(src/arxiv-paper-downloader/frontend/script.js, with the near-duplicate
variant in src/unnamed/part_000).

The JavaScript class `ArxivDownloader` is embedded shallowly:

* Instance state (`this.currentKeywords`, the keyword input's value) and the
  observable DOM (hidden-class flags of the loading / results / top-papers /
  error elements, the error text, the table rows, the highlight cards, the
  total-count label, transient anchors appended to `document.body`) are
  collected in `AppState`.
* The `async` method `searchPapers` suspends once, at its `fetch`; it is split
  into `searchPapersStart` (the synchronous prefix up to the `fetch` call,
  returning the issued request if any) and `searchPapersSettle` (the
  continuation that runs when the response settles, including the `catch` and
  `finally` blocks).  `downloadPaper` is embedded the same way, as a single
  function from the settled response.
* A fetch outcome is a rejection (network error), or a response with an `ok`
  flag and a body whose JSON parse may itself throw (`Except String _`).
* `link.click()` on an anchor that carries a `download` attribute asks the
  browser to save the file; it is recorded in `downloads` and does not touch
  `navigations` (assignments to `window.location.href`).
* JavaScript strings are modelled as Lean strings (character sequences);
  `relevance_score` is carried in thousandths (an `Int`), since the client
  only ever formats it with `toFixed(3)`.
-/

/-- A paper object as delivered by the `/search` service
(fields as used by script.js).  `relevance_score` is in thousandths. -/
structure Paper where
  id : Nat
  title : String
  published : String
  authors : List String
  summary : String
  relevance_score : Int
  is_top : Bool
  deriving Repr, DecidableEq

/-- The parsed JSON body of a successful `/search` response
(`{ total, top_papers, papers }`). -/
structure SearchData where
  total : Nat
  top_papers : List Paper
  papers : List Paper
  deriving Repr, DecidableEq

/-- The parsed JSON body of a `/download/{id}` response.  A success body
carries `path` and `filename`; a failure body carries `detail`.  JSON being
dynamic, the embedding carries all three fields, with `detail` optional;
fields absent in the concrete body are irrelevant on the branch that would
read them. -/
structure DlData where
  path : String
  filename : String
  detail : Option String
  deriving Repr, DecidableEq

/-- A transient `<a>` element appended to `document.body`
(`link.href`, `link.download`). -/
structure LinkEl where
  href : String
  filename : String
  deriving Repr, DecidableEq

/-- A rendered highlight card (`createTopPaperCard`): the displayed texts and
the navigation URL installed in its `onclick` handler. -/
structure Card where
  titleText : String
  authorsText : String
  summaryText : String
  publishedText : String
  scoreText : String
  onclickUrl : String
  deriving Repr, DecidableEq

/-- A rendered table row (`createPaperRow`): the cell texts, the `onclick`
navigation URL of the title cell, and the arguments baked into the download
button's `onclick` attribute. -/
structure Row where
  idCell : String
  titleText : String
  isTopMarked : Bool
  titleOnclickUrl : String
  publishedCell : String
  authorsCell : String
  downloadOnclickId : Nat
  downloadOnclickKeywords : String
  deriving Repr, DecidableEq

/-- The observable DOM: hidden-class flags of the indicator elements, the
error text, the total label, the table body's rows, the highlight section's
cards, and any anchors currently appended to `document.body`. -/
structure Dom where
  loadingHidden : Bool
  resultsHidden : Bool
  topPapersHidden : Bool
  errorHidden : Bool
  errorText : String
  totalText : String
  tableRows : List Row
  topCards : List Card
  bodyLinks : List LinkEl
  deriving Repr, DecidableEq

/-- The whole observable state: the `ArxivDownloader` instance fields that
matter (`apiBase`, `currentKeywords`), the keyword input's value, the DOM,
the downloads the browser was asked to save, and the navigations performed. -/
structure AppState where
  apiBase : String
  currentKeywords : String
  inputValue : String
  dom : Dom
  downloads : List (String × String)
  navigations : List String
  deriving Repr, DecidableEq

/-- JavaScript `a || b` for a possibly-absent string `a`: the fallback fires
when the field is missing or is the (falsy) empty string. -/
def jsOr (a : Option String) (b : String) : String :=
  match a with
  | some s => if s = "" then b else s
  | none => b

/-- Characters that `encodeURIComponent` leaves unescaped:
alphanumerics and `- _ . ! ~ * ' ( )` (the apostrophe appears as code 39). -/
def isUnescapedURIChar (c : Char) : Bool :=
  c.isAlphanum || c = '-' || c = '_' || c = '.' || c = '!' || c = '~' ||
    c = '*' || c.toNat = 39 || c = '(' || c = ')'

/-- Uppercase hexadecimal digit for `n < 16`. -/
def hexDigit (n : Nat) : Char :=
  if n < 10 then Char.ofNat (48 + n) else Char.ofNat (55 + n)

/-- Percent-escape of one byte, `%XX` with uppercase hex. -/
def percentByte (b : Nat) : List Char :=
  ['%', hexDigit (b / 16 % 16), hexDigit (b % 16)]

/-- UTF-8 bytes of one code point. -/
def utf8Bytes (c : Char) : List Nat :=
  let n := c.toNat
  if n < 128 then [n]
  else if n < 2048 then [192 + n / 64, 128 + n % 64]
  else if n < 65536 then [224 + n / 4096, 128 + n / 64 % 64, 128 + n % 64]
  else [240 + n / 262144, 128 + n / 4096 % 64, 128 + n / 64 % 64, 128 + n % 64]

/-- The browser's `encodeURIComponent`: unescaped characters pass through,
every other character is replaced by the percent-escapes of its UTF-8 bytes. -/
def encodeURIComponent (s : String) : String :=
  String.mk (s.data.foldr
    (fun c acc =>
      (if isUnescapedURIChar c then [c]
       else (utf8Bytes c).foldr (fun b a => percentByte b ++ a) []) ++ acc)
    [])

/-- Three decimal digits of `k % 1000`, with leading zeros (the fractional
part produced by `toFixed(3)`). -/
def pad3 (k : Nat) : String :=
  String.mk [Char.ofNat (48 + k / 100 % 10), Char.ofNat (48 + k / 10 % 10),
    Char.ofNat (48 + k % 10)]

/-- JavaScript `x.toFixed(3)` on a score carried in thousandths. -/
def toFixed3 (m : Int) : String :=
  (if m < 0 then "-" else "") ++ toString (m.natAbs / 1000) ++ "." ++ pad3 m.natAbs

/-- JavaScript `String.prototype.trim`: removes whitespace from both ends of
the string.  (Modelled structurally over the character list so that it
evaluates by kernel reduction.) -/
def jsTrim (s : String) : String :=
  String.mk (((s.data.dropWhile Char.isWhitespace).reverse.dropWhile
    Char.isWhitespace).reverse)

/-- script.js lines 187-192: `showLoading` shows the loading element and adds
the `hidden` class to the results, top-papers and error elements. -/
def showLoading (s : AppState) : AppState :=
  { s with dom :=
      { s.dom with
          loadingHidden := false
          resultsHidden := true
          topPapersHidden := true
          errorHidden := true } }

/-- script.js lines 194-196: `hideLoading` adds the `hidden` class to the
loading element only. -/
def hideLoading (s : AppState) : AppState :=
  { s with dom := { s.dom with loadingHidden := true } }

/-- script.js lines 198-201: `showError` sets the error element's text and
removes its `hidden` class; it touches nothing else. -/
def showError (s : AppState) (message : String) : AppState :=
  { s with dom := { s.dom with errorText := message, errorHidden := false } }

/-- script.js lines 102-131: `createTopPaperCard`.  It reads
`this.currentKeywords` (its only use of instance state), passed here as
`currentKeywords`.  The title is truncated at 80 characters with `'...'`
appended when longer; authors are `slice(0, 2).join(', ')` with `' et al.'`
when more than two; the score is `toFixed(3)`; `onclick` navigates to
`/paper/{id}?keywords={encodeURIComponent(currentKeywords)}`. -/
def createTopPaperCard (currentKeywords : String) (paper : Paper) : Card :=
  let encodedKeywords := encodeURIComponent currentKeywords
  { titleText :=
      if paper.title.length > 80 then paper.title.take 80 ++ "..." else paper.title
    authorsText :=
      String.intercalate ", " (paper.authors.take 2) ++
        (if paper.authors.length > 2 then " et al." else "")
    summaryText := paper.summary
    publishedText := paper.published
    scoreText := toFixed3 paper.relevance_score
    onclickUrl := "/paper/" ++ toString paper.id ++ "?keywords=" ++ encodedKeywords }

/-- script.js lines 133-159: `createPaperRow`.  Reads `this.currentKeywords`
(its only use of instance state), passed as `currentKeywords`.  The title
cell's `onclick` navigates to `/paper/{id}?keywords={encoded}`; the download
button's `onclick` attribute bakes in the paper id and the raw (unencoded)
`currentKeywords` string. -/
def createPaperRow (currentKeywords : String) (paper : Paper) : Row :=
  let encodedKeywords := encodeURIComponent currentKeywords
  { idCell := toString paper.id
    titleText := paper.title
    isTopMarked := paper.is_top
    titleOnclickUrl := "/paper/" ++ toString paper.id ++ "?keywords=" ++ encodedKeywords
    publishedCell := paper.published
    authorsCell :=
      String.intercalate ", " (paper.authors.take 2) ++
        (if paper.authors.length > 2 then " et al." else "")
    downloadOnclickId := paper.id
    downloadOnclickKeywords := currentKeywords }

/-- script.js lines 81-100: `displayTopPapers` clears the highlight section
(`innerHTML = ''`), returns early when `topPapers` is empty (leaving the
section's `hidden` class as it was), and otherwise appends one card per top
paper and removes the `hidden` class. -/
def displayTopPapers (s : AppState) (topPapers : List Paper) : AppState :=
  let s := { s with dom := { s.dom with topCards := [] } }
  if topPapers.length = 0 then s
  else
    { s with dom :=
        { s.dom with
            topCards := topPapers.map (createTopPaperCard s.currentKeywords)
            topPapersHidden := false } }

/-- script.js lines 66-79: `displayResults` renders the top papers, removes
the results element's `hidden` class, writes `data.total` verbatim into the
total label, clears the table body (`innerHTML = ''`) and appends one row per
element of `data.papers`, in order. -/
def displayResults (s : AppState) (data : SearchData) : AppState :=
  let s := displayTopPapers s data.top_papers
  { s with dom :=
      { s.dom with
          resultsHidden := false
          totalText := toString data.total
          tableRows := data.papers.map (createPaperRow s.currentKeywords) } }

/-- Outcome of the `fetch` in `searchPapers` once it settles:
the fetch rejects; or a response with `ok = true` whose body parse yields
`SearchData` or throws; or a response with `ok = false` and a status, whose
body parse yields an object with an optional `detail` field or throws. -/
inductive SearchResponse where
  | fetchThrows (msg : String)
  | okResp (body : Except String SearchData)
  | errResp (status : Nat) (body : Except String (Option String))
  deriving Repr

/-- script.js lines 32-41: the synchronous prefix of `searchPapers`, up to the
`fetch` suspension.  Trims the input field's value, unconditionally stores it
in `this.currentKeywords`, and either shows the validation error and returns
(no request), or shows the loading indicator and issues one request carrying
the trimmed keywords. -/
def searchPapersStart (s : AppState) : AppState × Option String :=
  let keywords := jsTrim s.inputValue
  let s := { s with currentKeywords := keywords }
  if keywords = "" then (showError s "Please enter keywords", none)
  else (showLoading s, some keywords)

/-- script.js lines 42-63: the continuation of `searchPapers` after its
`fetch` settles, including the `catch` (which wraps any thrown message as
`Search failed: ...`) and the `finally` (which always hides the loading
indicator).  A non-ok response throws `errorData.detail || 'API Error: ' +
response.status`; a body-parse failure throws its own message. -/
def searchPapersSettle (s : AppState) (resp : SearchResponse) : AppState :=
  hideLoading <|
    match resp with
    | .fetchThrows msg => showError s ("Search failed: " ++ msg)
    | .okResp (.error msg) => showError s ("Search failed: " ++ msg)
    | .okResp (.ok data) => displayResults s data
    | .errResp _ (.error msg) => showError s ("Search failed: " ++ msg)
    | .errResp status (.ok detail) =>
        showError s
          ("Search failed: " ++ jsOr detail ("API Error: " ++ toString status))

/-- Outcome of the `fetch` in `downloadPaper` once it settles: the fetch
rejects, or a response with an `ok` flag whose JSON body parse yields `DlData`
or throws. -/
inductive DownloadResponse where
  | fetchThrows (msg : String)
  | resp (ok : Bool) (body : Except String DlData)
  deriving Repr

/-- script.js lines 161-185: `downloadPaper` from the point its `fetch`
settles.  On an ok response it creates an anchor with
`href = apiBase + data.path` and `download = data.filename`, appends it to the
body, clicks it (asking the browser to save the file) and removes it again.
On a non-ok response it throws `data.detail || 'Download failed'`; the `catch`
shows `Download failed: ` followed by the thrown message.  (The `keywords`
argument is only sent in the request body; it does not affect the settled
state.) -/
def downloadPaper (s : AppState) (resp : DownloadResponse) : AppState :=
  match resp with
  | .fetchThrows msg => showError s ("Download failed: " ++ msg)
  | .resp _ (.error msg) => showError s ("Download failed: " ++ msg)
  | .resp true (.ok data) =>
      let link : LinkEl := { href := s.apiBase ++ data.path, filename := data.filename }
      let s := { s with dom := { s.dom with bodyLinks := s.dom.bodyLinks ++ [link] } }
      let s := { s with downloads := s.downloads ++ [(link.href, link.filename)] }
      { s with dom := { s.dom with bodyLinks := s.dom.bodyLinks.dropLast } }
  | .resp false (.ok data) =>
      showError s ("Download failed: " ++ jsOr data.detail "Download failed")

/-- The user edits the keyword input field: only the field's value changes. -/
def setInput (s : AppState) (v : String) : AppState :=
  { s with inputValue := v }

/-- The user clicks a rendered title: the page navigates to the URL baked into
that cell's `onclick` attribute at render time. -/
def clickRowTitle (s : AppState) (row : Row) : AppState :=
  { s with navigations := s.navigations ++ [row.titleOnclickUrl] }

/-- The user clicks a rendered highlight card: the page navigates to the URL
captured in the card's `onclick` closure at render time. -/
def clickCard (s : AppState) (card : Card) : AppState :=
  { s with navigations := s.navigations ++ [card.onclickUrl] }

/-- State right after `new ArxivDownloader()` on a page whose URL carries no
`keywords` parameter: `apiBase` is the page origin, `currentKeywords` is
empty, the input is empty, and the loading, results, top-papers and error
elements all start with the `hidden` class. -/
def initialState (origin : String) : AppState :=
  { apiBase := origin
    currentKeywords := ""
    inputValue := ""
    dom := { loadingHidden := true, resultsHidden := true, topPapersHidden := true,
             errorHidden := true, errorText := "", totalText := "",
             tableRows := [], topCards := [], bodyLinks := [] }
    downloads := []
    navigations := [] }

/-- A search fetch outcome that the `try` block turns into a rendered result
(an ok response whose body parses): the success discriminator of one submit. -/
def searchSuccess : SearchResponse → Bool
  | .okResp (.ok _) => true
  | _ => false

/-- A download fetch outcome that takes the failure path of `downloadPaper`
(fetch rejection, body-parse failure, or a non-ok response). -/
def isDownloadFailure : DownloadResponse → Bool
  | .resp true (.ok _) => false
  | _ => true

/-- Stated from the spec's words, for comparison with the rendered card: the
title truncated to 80 characters followed by an ellipsis marker when longer
than 80 characters, and the unmodified title otherwise. -/
def specTruncatedTitle (t : String) : String :=
  if t.length > 80 then t.take 80 ++ "..." else t

/-- Stated from the spec's words, for comparison with the rendered card and
row: the first two authors joined by a comma separator, with an " et al."
suffix exactly when there are more than two authors. -/
def specAuthorLine (authors : List String) : String :=
  String.intercalate ", " (authors.take 2) ++
    (if authors.length > 2 then " et al." else "")

/-- A string of the shape `a ++ "." ++ b` where `b` is exactly three decimal
digits: the spec's "formatted to exactly 3 decimal places". -/
def endsWithThreeDecimals (s : String) : Prop :=
  ∃ a b, s = a ++ "." ++ b ∧ b.length = 3 ∧ b.data.all (fun c => c.isDigit) = true

/-- Sample paper 1 for concrete executions. -/
def paperA : Paper :=
  { id := 1, title := "Alpha", published := "2024-01-01", authors := ["A"],
    summary := "sa", relevance_score := 2345, is_top := true }

/-- Sample paper 2 for concrete executions. -/
def paperB : Paper :=
  { id := 2, title := "Beta", published := "2024-02-02", authors := ["B"],
    summary := "sb", relevance_score := 100, is_top := false }

/-- Search payload containing only `paperA`. -/
def dataA : SearchData := { total := 1, top_papers := [], papers := [paperA] }

/-- Search payload containing only `paperB`. -/
def dataB : SearchData := { total := 1, top_papers := [], papers := [paperB] }

/-- The fractional part written by `toFixed3` is three characters long. -/
theorem pad3_length (k : Nat) : (pad3 k).length = 3 := rfl

/-- The fractional part written by `toFixed3` consists of decimal digits. -/
theorem pad3_digits (k : Nat) : (pad3 k).data.all (fun c => c.isDigit) = true := by
  have h : ∀ x, x < 10 → (Char.ofNat (48 + x)).isDigit = true := by decide
  simp only [pad3, List.all_cons, List.all_nil, Bool.and_eq_true, Bool.and_true]
  exact ⟨h _ (Nat.mod_lt _ (by decide)), h _ (Nat.mod_lt _ (by decide)),
    h _ (Nat.mod_lt _ (by decide))⟩

/-- Rendering leaves the instance fields of the `ArxivDownloader` object
(`currentKeywords`, `apiBase`) and the input field untouched. -/
theorem displayResults_fields (s : AppState) (data : SearchData) :
    (displayResults s data).currentKeywords = s.currentKeywords ∧
    (displayResults s data).apiBase = s.apiBase ∧
    (displayResults s data).inputValue = s.inputValue := by
  simp only [displayResults, displayTopPapers]
  split <;> simp

/-- C3: for every raw input whose trimmed value is empty, `searchPapers`
shows the validation error `Please enter keywords` directly (no loading phase:
the loading indicator's class is untouched) and issues no network request. -/
theorem C3_blank_submit (s : AppState) (h : jsTrim s.inputValue = "") :
    (searchPapersStart s).2 = none ∧
    (searchPapersStart s).1.dom.errorText = "Please enter keywords" ∧
    (searchPapersStart s).1.dom.errorHidden = false ∧
    (searchPapersStart s).1.dom.loadingHidden = s.dom.loadingHidden ∧
    (searchPapersStart s).1.dom.resultsHidden = s.dom.resultsHidden ∧
    (searchPapersStart s).1.dom.tableRows = s.dom.tableRows := by
  simp [searchPapersStart, showError, h]

/-- Witness for C3 at the concrete whitespace-only input three spaces. -/
theorem C3_blank_submit_witness :
    (searchPapersStart (setInput (initialState "http://localhost") "   ")).2 = none ∧
    (searchPapersStart (setInput (initialState "http://localhost") "   ")).1.dom.errorText
      = "Please enter keywords" ∧
    (searchPapersStart (setInput (initialState "http://localhost") "   ")).1.dom.errorHidden
      = false ∧
    (searchPapersStart (setInput (initialState "http://localhost") "   ")).1.dom.loadingHidden
      = (setInput (initialState "http://localhost") "   ").dom.loadingHidden ∧
    (searchPapersStart (setInput (initialState "http://localhost") "   ")).1.dom.resultsHidden
      = (setInput (initialState "http://localhost") "   ").dom.resultsHidden ∧
    (searchPapersStart (setInput (initialState "http://localhost") "   ")).1.dom.tableRows
      = (setInput (initialState "http://localhost") "   ").dom.tableRows :=
  C3_blank_submit (setInput (initialState "http://localhost") "   ") (by decide)

/-- C2: for every non-empty trimmed input, `searchPapers` shows the loading
indicator synchronously (before any response is observed) and issues the
request; once the request settles — whatever the outcome, including a thrown
fetch or a throwing JSON parse — the loading indicator is hidden again, and
exactly one of the results view (on success) or the error indicator (on
failure) is visible. -/
theorem C2_loading_then_exactly_one (s : AppState) (h : jsTrim s.inputValue ≠ "") :
    (searchPapersStart s).1.dom.loadingHidden = false ∧
    (searchPapersStart s).2 = some (jsTrim s.inputValue) ∧
    ∀ resp : SearchResponse,
      (searchPapersSettle (searchPapersStart s).1 resp).dom.loadingHidden = true ∧
      ((searchPapersSettle (searchPapersStart s).1 resp).dom.resultsHidden = false ↔
        searchSuccess resp = true) ∧
      ((searchPapersSettle (searchPapersStart s).1 resp).dom.errorHidden = false ↔
        searchSuccess resp = false) := by
  refine ⟨by simp [searchPapersStart, h, showLoading], by simp [searchPapersStart, h], ?_⟩
  intro resp
  cases resp with
  | fetchThrows msg =>
      simp [searchPapersStart, h, showLoading, showError, hideLoading, searchPapersSettle,
        searchSuccess]
  | okResp body =>
      cases body with
      | error msg =>
          simp [searchPapersStart, h, showLoading, showError, hideLoading, searchPapersSettle,
            searchSuccess]
      | ok data =>
          simp only [searchPapersStart, h, if_neg, searchPapersSettle, searchSuccess]
          simp only [displayResults, displayTopPapers]
          split <;> simp [hideLoading, showLoading]
  | errResp status body =>
      cases body with
      | error msg =>
          simp [searchPapersStart, h, showLoading, showError, hideLoading, searchPapersSettle,
            searchSuccess]
      | ok detail =>
          simp [searchPapersStart, h, showLoading, showError, hideLoading, searchPapersSettle,
            searchSuccess]

/-- Witness for C2 at the concrete input quantum. -/
theorem C2_loading_then_exactly_one_witness :
    (searchPapersStart (setInput (initialState "http://localhost") "quantum")).1.dom.loadingHidden
      = false ∧
    (searchPapersStart (setInput (initialState "http://localhost") "quantum")).2
      = some (jsTrim (setInput (initialState "http://localhost") "quantum").inputValue) ∧
    ∀ resp : SearchResponse,
      (searchPapersSettle
        (searchPapersStart (setInput (initialState "http://localhost") "quantum")).1
        resp).dom.loadingHidden = true ∧
      ((searchPapersSettle
        (searchPapersStart (setInput (initialState "http://localhost") "quantum")).1
        resp).dom.resultsHidden = false ↔ searchSuccess resp = true) ∧
      ((searchPapersSettle
        (searchPapersStart (setInput (initialState "http://localhost") "quantum")).1
        resp).dom.errorHidden = false ↔ searchSuccess resp = false) :=
  C2_loading_then_exactly_one (setInput (initialState "http://localhost") "quantum") (by decide)

/-- C7: the rendered card title equals the spec's 80-character truncation rule
applied to the paper title; the author line, in both the highlight card and
the table row, equals the spec's first-two-authors rule (concretely, authors
A, B, C render as `A, B et al.` and authors A, B render as `A, B`); and the
rendered relevance score is a string with exactly three decimal digits after
the point. -/
theorem C7_formatting (kw : String) (paper : Paper) :
    (createTopPaperCard kw paper).titleText = specTruncatedTitle paper.title ∧
    (createTopPaperCard kw paper).authorsText = specAuthorLine paper.authors ∧
    (createPaperRow kw paper).authorsCell = specAuthorLine paper.authors ∧
    specAuthorLine ["A", "B", "C"] = "A, B et al." ∧
    specAuthorLine ["A", "B"] = "A, B" ∧
    (createTopPaperCard kw paper).scoreText = toFixed3 paper.relevance_score ∧
    endsWithThreeDecimals (createTopPaperCard kw paper).scoreText ∧
    toFixed3 2345 = "2.345" := by
  refine ⟨rfl, rfl, rfl, by decide, by decide, rfl, ?_, by decide⟩
  refine ⟨(if paper.relevance_score < 0 then "-" else "") ++
    toString (paper.relevance_score.natAbs / 1000),
    pad3 paper.relevance_score.natAbs, rfl, pad3_length _, pad3_digits _⟩

/-- C8: rendering is destructive and idempotent.  One call renders exactly one
row per element of `papers`, in order (the table body is cleared first, so
nothing accumulates); calling `displayResults` twice with the same payload
yields exactly the same rows, the same row count, and the same highlight
cards both times. -/
theorem C8_render_idempotent (s : AppState) (data : SearchData) :
    (displayResults s data).dom.tableRows
      = data.papers.map (createPaperRow s.currentKeywords) ∧
    (displayResults (displayResults s data) data).dom.tableRows
      = (displayResults s data).dom.tableRows ∧
    (displayResults s data).dom.tableRows.length = data.papers.length ∧
    (displayResults (displayResults s data) data).dom.tableRows.length
      = data.papers.length ∧
    (displayResults (displayResults s data) data).dom.topCards
      = (displayResults s data).dom.topCards ∧
    (displayResults (displayResults s data) data).dom.totalText
      = (displayResults s data).dom.totalText := by
  have hk : ∀ t : AppState, ∀ d : SearchData,
      (displayResults t d).currentKeywords = t.currentKeywords :=
    fun t d => (displayResults_fields t d).1
  have hrows : ∀ t : AppState,
      (displayResults t data).dom.tableRows
        = data.papers.map (createPaperRow t.currentKeywords) := by
    intro t
    simp only [displayResults, displayTopPapers]
    split <;> simp
  have htop : ∀ t : AppState,
      (displayResults t data).dom.topCards
        = if data.top_papers.length = 0 then []
          else data.top_papers.map (createTopPaperCard t.currentKeywords) := by
    intro t
    simp only [displayResults, displayTopPapers]
    split <;> simp_all
  have htot : ∀ t : AppState,
      (displayResults t data).dom.totalText = toString data.total := by
    intro t
    simp only [displayResults, displayTopPapers]
  refine ⟨hrows s, ?_, ?_, ?_, ?_, ?_⟩
  · rw [hrows (displayResults s data), hrows s, hk]
  · rw [hrows s, List.length_map]
  · rw [hrows (displayResults s data), List.length_map]
  · rw [htop (displayResults s data), htop s, hk]
  · rw [htot (displayResults s data), htot s]

/-- C4: the navigation URL installed on a rendered title — highlight card and
table row alike — is `/paper/{id}?keywords={encodeURIComponent kw}` for the
keyword context `kw` the renderer was invoked with, and the row's download
action bakes in exactly that raw context string; a full render reads the
stored `currentKeywords` once, at render time; clicking a rendered title
navigates to the URL baked into it; and editing the input field afterwards
changes neither the rendered DOM nor the stored context, so existing links
and download actions are unaffected. -/
theorem C4_render_time_capture (s : AppState) (data : SearchData) (paper : Paper)
    (kw v : String) :
    (createTopPaperCard kw paper).onclickUrl
      = "/paper/" ++ toString paper.id ++ "?keywords=" ++ encodeURIComponent kw ∧
    (createPaperRow kw paper).titleOnclickUrl
      = "/paper/" ++ toString paper.id ++ "?keywords=" ++ encodeURIComponent kw ∧
    (createPaperRow kw paper).downloadOnclickKeywords = kw ∧
    (createPaperRow kw paper).downloadOnclickId = paper.id ∧
    (displayResults s data).dom.tableRows
      = data.papers.map (createPaperRow s.currentKeywords) ∧
    clickRowTitle s (createPaperRow kw paper)
      = { s with navigations := s.navigations ++
          ["/paper/" ++ toString paper.id ++ "?keywords=" ++ encodeURIComponent kw] } ∧
    clickCard s (createTopPaperCard kw paper)
      = { s with navigations := s.navigations ++
          ["/paper/" ++ toString paper.id ++ "?keywords=" ++ encodeURIComponent kw] } ∧
    (setInput (displayResults s data) v).dom = (displayResults s data).dom ∧
    (setInput (displayResults s data) v).currentKeywords = s.currentKeywords := by
  refine ⟨rfl, rfl, rfl, rfl, (C8_render_idempotent s data).1, rfl, rfl, rfl, ?_⟩
  exact (displayResults_fields s data).1

/-- C9: every failing download attempt — fetch rejection, body-parse failure,
or non-ok response — shows an error of the form `Download failed: ` followed
by the detail or thrown message (for a 404 whose body carries detail
`not found`, exactly `Download failed: not found`), and leaves the search
results table, the results view's visibility, and the highlight section
exactly as they were. -/
theorem C9_download_failure (s : AppState) (resp : DownloadResponse)
    (h : isDownloadFailure resp = true) :
    (downloadPaper s resp).dom.errorHidden = false ∧
    (∃ msg, (downloadPaper s resp).dom.errorText = "Download failed: " ++ msg) ∧
    (downloadPaper s resp).dom.tableRows = s.dom.tableRows ∧
    (downloadPaper s resp).dom.resultsHidden = s.dom.resultsHidden ∧
    (downloadPaper s resp).dom.topCards = s.dom.topCards ∧
    (downloadPaper s resp).dom.topPapersHidden = s.dom.topPapersHidden ∧
    (downloadPaper s resp).dom.totalText = s.dom.totalText ∧
    (downloadPaper s
        (.resp false (.ok { path := "", filename := "", detail := some "not found" }))
      ).dom.errorText = "Download failed: not found" := by
  cases resp with
  | fetchThrows msg =>
      exact ⟨rfl, ⟨msg, rfl⟩, rfl, rfl, rfl, rfl, rfl, rfl⟩
  | resp ok body =>
      cases body with
      | error msg =>
          cases ok <;> exact ⟨rfl, ⟨msg, rfl⟩, rfl, rfl, rfl, rfl, rfl, rfl⟩
      | ok data =>
          cases ok with
          | false =>
              exact ⟨rfl, ⟨jsOr data.detail "Download failed", rfl⟩, rfl, rfl, rfl, rfl,
                rfl, rfl⟩
          | true => simp [isDownloadFailure] at h

/-- Witness for C9: the concrete 404 response with detail `not found`,
applied to a state that already displays one row. -/
theorem C9_download_failure_witness :
    (downloadPaper (displayResults (initialState "http://localhost") dataA)
        (.resp false (.ok { path := "", filename := "", detail := some "not found" }))
      ).dom.errorHidden = false ∧
    (∃ msg, (downloadPaper (displayResults (initialState "http://localhost") dataA)
        (.resp false (.ok { path := "", filename := "", detail := some "not found" }))
      ).dom.errorText = "Download failed: " ++ msg) ∧
    (downloadPaper (displayResults (initialState "http://localhost") dataA)
        (.resp false (.ok { path := "", filename := "", detail := some "not found" }))
      ).dom.tableRows
      = (displayResults (initialState "http://localhost") dataA).dom.tableRows ∧
    (downloadPaper (displayResults (initialState "http://localhost") dataA)
        (.resp false (.ok { path := "", filename := "", detail := some "not found" }))
      ).dom.resultsHidden
      = (displayResults (initialState "http://localhost") dataA).dom.resultsHidden ∧
    (downloadPaper (displayResults (initialState "http://localhost") dataA)
        (.resp false (.ok { path := "", filename := "", detail := some "not found" }))
      ).dom.topCards
      = (displayResults (initialState "http://localhost") dataA).dom.topCards ∧
    (downloadPaper (displayResults (initialState "http://localhost") dataA)
        (.resp false (.ok { path := "", filename := "", detail := some "not found" }))
      ).dom.topPapersHidden
      = (displayResults (initialState "http://localhost") dataA).dom.topPapersHidden ∧
    (downloadPaper (displayResults (initialState "http://localhost") dataA)
        (.resp false (.ok { path := "", filename := "", detail := some "not found" }))
      ).dom.totalText
      = (displayResults (initialState "http://localhost") dataA).dom.totalText ∧
    (downloadPaper (displayResults (initialState "http://localhost") dataA)
        (.resp false (.ok { path := "", filename := "", detail := some "not found" }))
      ).dom.errorText = "Download failed: not found" :=
  C9_download_failure (displayResults (initialState "http://localhost") dataA)
    (.resp false (.ok { path := "", filename := "", detail := some "not found" }))
    (by rfl)

/-- C10: on a successful download response the browser is asked to save the
file under the returned filename from the URL obtained by resolving the
returned path against the current origin (`apiBase`), with no navigation; and
on every outcome, success or failure, the transient anchor is fully cleaned
up — the set of elements appended to the document body is unchanged — and no
navigation occurs.  Instantiating the success conjunct at the scenario
response path `/files/7.pdf`, filename `paper7.pdf` yields exactly the saved
file `paper7.pdf`. -/
theorem C10_download_dispatch (s : AppState) (path filename : String)
    (detail : Option String) (resp : DownloadResponse) :
    (downloadPaper s
        (.resp true (.ok { path := path, filename := filename, detail := detail }))
      ).downloads = s.downloads ++ [(s.apiBase ++ path, filename)] ∧
    (downloadPaper s resp).navigations = s.navigations ∧
    (downloadPaper s resp).dom.bodyLinks = s.dom.bodyLinks ∧
    (downloadPaper (initialState "http://localhost")
        (.resp true (.ok ⟨"/files/7.pdf", "paper7.pdf", none⟩))).downloads
      = [("http://localhost/files/7.pdf", "paper7.pdf")] := by
  refine ⟨rfl, ?_, ?_, by decide⟩ <;>
    · cases resp with
      | fetchThrows msg => rfl
      | resp ok body =>
          cases body with
          | error msg => cases ok <;> rfl
          | ok data =>
              cases ok with
              | false => rfl
              | true => simp [downloadPaper]

/-- C1 counterexample: two overlapping submits, with the response to the
second (most recent) request arriving first and the response to the first
request arriving late.  The code has no guard, so the late stale response is
rendered and overwrites the newer result: the final table shows the earlier
request's papers (`dataA`, paper id 1) although the most recently issued
request was for `second` and its response (`dataB`, paper id 2) had already
been rendered.  This falsifies the claim that a late-arriving response to an
earlier request never overwrites the newer result. -/
theorem C1_counterexample :
    (searchPapersStart (setInput
      (searchPapersStart (setInput (initialState "http://localhost") "first")).1
      "second")).2 = some "second" ∧
    (searchPapersSettle
      (searchPapersStart (setInput
        (searchPapersStart (setInput (initialState "http://localhost") "first")).1
        "second")).1
      (.okResp (.ok dataB))).dom.tableRows
      = dataB.papers.map (createPaperRow "second") ∧
    (searchPapersSettle
      (searchPapersSettle
        (searchPapersStart (setInput
          (searchPapersStart (setInput (initialState "http://localhost") "first")).1
          "second")).1
        (.okResp (.ok dataB)))
      (.okResp (.ok dataA))).dom.tableRows
      = dataA.papers.map (createPaperRow "second") ∧
    dataA.papers.map (createPaperRow "second")
      ≠ dataB.papers.map (createPaperRow "second") := by
  refine ⟨by decide, by decide, by decide, by decide⟩

/-- C1 as amended: the code renders responses in arrival order with no
stale-response guard.  Settling any successful search response renders that
response's papers and total, whatever request it answered and whatever was
rendered before — so when responses arrive out of order the Results view
reflects the last response to arrive, not necessarily the most recently
issued request — and every non-blank submit issues a request even while an
earlier one is still in flight. -/
theorem C1_last_arrival_wins (s : AppState) (data : SearchData) :
    (searchPapersSettle s (.okResp (.ok data))).dom.tableRows
      = data.papers.map (createPaperRow s.currentKeywords) ∧
    (searchPapersSettle s (.okResp (.ok data))).dom.totalText
      = toString data.total ∧
    (searchPapersStart s).2
      = (if jsTrim s.inputValue = "" then none else some (jsTrim s.inputValue)) := by
  have h1 : (searchPapersSettle s (.okResp (.ok data))).dom.tableRows
      = (displayResults s data).dom.tableRows := by
    simp only [searchPapersSettle, hideLoading]
  have h2 : (searchPapersSettle s (.okResp (.ok data))).dom.totalText
      = (displayResults s data).dom.totalText := by
    simp only [searchPapersSettle, hideLoading]
  refine ⟨?_, ?_, ?_⟩
  · rw [h1]; exact (C8_render_idempotent s data).1
  · rw [h2]
    simp only [displayResults, displayTopPapers]
  · simp only [searchPapersStart]
    split <;> simp

/-- C5 counterexample: a reachable state in which two indicators are visible
at once.  After a successful search (results visible) a failed download calls
`showError`, which does not hide the results view: in the final state the
results view and the error indicator are both visible, contradicting mutual
exclusion in every reachable state and contradicting that entering Error
makes only the error indicator visible. -/
theorem C5_counterexample :
    (downloadPaper
      (searchPapersSettle
        (searchPapersStart (setInput (initialState "http://localhost") "quantum")).1
        (.okResp (.ok dataA)))
      (.resp false (.ok ⟨"", "", some "not found"⟩))).dom.resultsHidden = false ∧
    (downloadPaper
      (searchPapersSettle
        (searchPapersStart (setInput (initialState "http://localhost") "quantum")).1
        (.okResp (.ok dataA)))
      (.resp false (.ok ⟨"", "", some "not found"⟩))).dom.errorHidden = false := by
  exact ⟨by decide, by decide⟩

/-- C5 as amended: entering Loading does make the loading indicator the only
visible one of the four (it hides the results view, the highlight section and
any prior error), and `showError` sets the message and makes the error
indicator visible while leaving rendered results in memory — but it does not
hide the results view, so mutual exclusion holds only on the search path
(where `showLoading` ran first), not after a download failure, where the
error indicator and the still-visible results coexist. -/
theorem C5_indicator_transitions (s : AppState) (msg : String) :
    (showLoading s).dom.loadingHidden = false ∧
    (showLoading s).dom.resultsHidden = true ∧
    (showLoading s).dom.topPapersHidden = true ∧
    (showLoading s).dom.errorHidden = true ∧
    (showError s msg).dom.errorHidden = false ∧
    (showError s msg).dom.errorText = msg ∧
    (showError s msg).dom.resultsHidden = s.dom.resultsHidden ∧
    (showError s msg).dom.topPapersHidden = s.dom.topPapersHidden ∧
    (showError s msg).dom.loadingHidden = s.dom.loadingHidden ∧
    (showError s msg).dom.tableRows = s.dom.tableRows ∧
    (showError s msg).dom.topCards = s.dom.topCards := by
  exact ⟨rfl, rfl, rfl, rfl, rfl, rfl, rfl, rfl, rfl, rfl, rfl⟩

/-- C6 counterexample: the stored keyword context is not preserved across a
blank submit.  After a successful submit of `quantum` the stored context is
`quantum`; a following whitespace-only submit (a validation failure that the
claim says leaves the context unchanged) overwrites it with the empty
string.  Likewise a submit whose request later fails has already overwritten
the context at submit time. -/
theorem C6_counterexample :
    (searchPapersStart (setInput (initialState "http://localhost")
      "quantum")).1.currentKeywords = "quantum" ∧
    (searchPapersStart (setInput
      (searchPapersStart (setInput (initialState "http://localhost") "quantum")).1
      "   ")).1.currentKeywords = "" ∧
    (searchPapersStart (setInput
      (searchPapersStart (setInput (initialState "http://localhost") "quantum")).1
      "other")).1.currentKeywords = "other" := by
  exact ⟨by decide, by decide, by decide⟩

/-- C6 as amended: `searchPapers` overwrites the stored keyword context with
the trimmed input at the start of every submit — blank submits reset it to
the empty string and submits whose request later fails keep the new value
(settling a response never changes it) — rather than preserving it until the
next successful submit. -/
theorem C6_context_overwritten_every_submit (s : AppState) :
    (searchPapersStart s).1.currentKeywords = jsTrim s.inputValue ∧
    ∀ resp : SearchResponse,
      (searchPapersSettle s resp).currentKeywords = s.currentKeywords := by
  constructor
  · simp only [searchPapersStart]
    split <;> simp [showError, showLoading]
  · intro resp
    cases resp with
    | fetchThrows msg => rfl
    | okResp body =>
        cases body with
        | error msg => rfl
        | ok data =>
            simp only [searchPapersSettle, hideLoading]
            exact (displayResults_fields s data).1
    | errResp status body =>
        cases body with
        | error msg => rfl
        | ok detail => rfl
